import Mathlib

/-!
Verification of the EleKit passive-component solver module (`passives.py`).

The module is a library of pure algebraic solvers.  Each function takes
numeric parameters, exactly one of which must be the sentinel value `0`
("solve for this one"); it validates the inputs, dispatches to an algebraic
formula and returns either a one-entry name/value mapping or a bare number.

Shallow embedding conventions:
* Python floats are modelled as exact rationals `ℚ` (each arithmetic
  operation is exact; IEEE rounding is not modelled).
* Python raises `ZeroDivisionError` on division by a zero denominator
  (it does not produce IEEE infinities), `ValueError` with a message for
  validation failures and for `math.sqrt` of a negative number
  ("math domain error"), and `TypeError` when a builtin such as `pow` is
  called with the wrong number of arguments.  These outcomes are modelled
  with `Except PyError`.
* `math.pi` is the IEEE-754 double closest to pi, an exact rational.
* `math.sqrt x` for `x ≥ 0` is kept symbolic via the `PyVal.sqrtNum`
  constructor (only `resonance` produces it).
* A Python tuple's `.count(0)` is the number of components equal to `0`.
-/

/-- Errors a solver call can raise, mirroring the Python exception and its
message text. -/
inductive PyError where
  | valueError (msg : String)
  | zeroDivisionError
  | typeError
deriving DecidableEq, Repr

instance {ε α : Type} [DecidableEq ε] [DecidableEq α] : DecidableEq (Except ε α) := fun x y =>
  match x, y with
  | .ok a, .ok b =>
      if h : a = b then .isTrue (by rw [h]) else .isFalse (by simp [h])
  | .error e, .error f =>
      if h : e = f then .isTrue (by rw [h]) else .isFalse (by simp [h])
  | .ok _, .error _ => .isFalse (by simp)
  | .error _, .ok _ => .isFalse (by simp)

/-- A value produced by a solver: either a plain number, or `math.sqrt`
applied to a non-negative number (kept symbolic). -/
inductive PyVal where
  | num (q : ℚ)
  | sqrtNum (q : ℚ)
deriving DecidableEq, Repr

/-- The IEEE-754 double nearest pi, the exact value of Python `math.pi`. -/
def mathPi : ℚ := 884279719003555 / 281474976710656

/-- Python float division: raises `ZeroDivisionError` when the denominator
is zero, otherwise divides (exactly, in this model). -/
def pydiv (a b : ℚ) : Except PyError ℚ :=
  if b = 0 then .error .zeroDivisionError else .ok (a / b)

/-- `(a, b, c).count(0)` for a three-component tuple. -/
def zc3 (a b c : ℚ) : Nat :=
  (if a = 0 then 1 else 0) + (if b = 0 then 1 else 0) + (if c = 0 then 1 else 0)

/-- `(a, b, c, d).count(0)` for a four-component tuple. -/
def zc4 (a b c d : ℚ) : Nat :=
  (if a = 0 then 1 else 0) + (if b = 0 then 1 else 0) +
  (if c = 0 then 1 else 0) + (if d = 0 then 1 else 0)

/-- `passives.ind_reactance`: solve `reactance = 2*pi*frequency*inductance`
for whichever argument is the zero sentinel. -/
def ind_reactance (inductance frequency reactance : ℚ) :
    Except PyError (String × ℚ) :=
  if zc3 inductance frequency reactance ≠ 1 then
    .error (.valueError "One and only one argument must be 0")
  else if inductance < 0 then
    .error (.valueError "Inductance cannot be negative")
  else if frequency < 0 then
    .error (.valueError "Frequency cannot be negative")
  else if reactance < 0 then
    .error (.valueError "Reactance cannot be negative")
  else if inductance = 0 then
    (pydiv reactance (2 * mathPi * frequency)).map (fun v => ("inductance", v))
  else if frequency = 0 then
    (pydiv reactance (2 * mathPi * inductance)).map (fun v => ("frequency", v))
  else if reactance = 0 then
    .ok ("reactance", 2 * mathPi * frequency * inductance)
  else
    .error (.valueError "Exactly one argument must be 0")

/-- `passives.cap_reactance`: solve `reactance = 1/(2*pi*frequency*capacitance)`
for whichever argument is the zero sentinel. -/
def cap_reactance (capacitance frequency reactance : ℚ) :
    Except PyError (String × ℚ) :=
  if zc3 capacitance frequency reactance ≠ 1 then
    .error (.valueError "One and only one argument must be 0")
  else if capacitance < 0 then
    .error (.valueError "Capacitance cannot be negative")
  else if frequency < 0 then
    .error (.valueError "Frequency cannot be negative")
  else if reactance < 0 then
    .error (.valueError "Reactance cannot be negative")
  else if capacitance = 0 then
    (pydiv 1 (2 * mathPi * frequency * reactance)).map (fun v => ("capacitance", v))
  else if frequency = 0 then
    (pydiv 1 (2 * mathPi * capacitance * reactance)).map (fun v => ("frequency", v))
  else if reactance = 0 then
    (pydiv 1 (2 * mathPi * frequency * capacitance)).map (fun v => ("reactance", v))
  else
    .error (.valueError "Exactly one argument must be 0")

/-- `passives.resonance`: LC resonance solver.  The frequency branch applies
`math.sqrt`, which raises `ValueError "math domain error"` on a negative
argument. -/
def resonance (capacitance inductance frequency : ℚ) :
    Except PyError (String × PyVal) :=
  if zc3 capacitance inductance frequency ≠ 1 then
    .error (.valueError "One and only one argument must be 0")
  else if inductance = 0 then
    (pydiv 1 ((2 * mathPi * frequency) ^ 2 * capacitance)).map
      (fun v => ("inductance", .num v))
  else if capacitance = 0 then
    (pydiv 1 ((2 * mathPi * frequency) ^ 2 * inductance)).map
      (fun v => ("capacitance", .num v))
  else if frequency = 0 then
    if 4 * mathPi ^ 2 * capacitance * inductance = 0 then
      .error .zeroDivisionError
    else if 1 / (4 * mathPi ^ 2 * capacitance * inductance) < 0 then
      .error (.valueError "math domain error")
    else
      .ok ("frequency", .sqrtNum (1 / (4 * mathPi ^ 2 * capacitance * inductance)))
  else
    .error (.valueError "Exactly one argument must be 0")

/-- `passives.ohms_law`: solve `voltage = current * resistance` for the zero
sentinel. -/
def ohms_law (voltage current resistance : ℚ) : Except PyError (String × ℚ) :=
  if zc3 voltage current resistance ≠ 1 then
    .error (.valueError "One and only one argument must be 0")
  else if voltage = 0 then
    .ok ("voltage", current * resistance)
  else if current = 0 then
    (pydiv voltage resistance).map (fun v => ("current", v))
  else if resistance = 0 then
    (pydiv voltage current).map (fun v => ("resistance", v))
  else
    .error (.valueError "Exactly one argument must be 0")

/-- `passives.power`: compute power from the two known quantities; the result
key is always the string "power". -/
def power (voltage current resistance : ℚ) : Except PyError (String × ℚ) :=
  if zc3 voltage current resistance ≠ 1 then
    .error (.valueError "One and only one argument must be 0")
  else if voltage = 0 then
    .ok ("power", current ^ 2 * resistance)
  else if current = 0 then
    (pydiv (voltage ^ 2) resistance).map (fun v => ("power", v))
  else if resistance = 0 then
    .ok ("power", voltage * current)
  else
    .error (.valueError "Exactly one argument must be 0")

/-- `passives.impedance`.  The `resistance == 0` branch evaluates
`math.sqrt(pow(ind_reactance + cap_reactance))`: the builtin `pow` is called
with a single argument, which raises `TypeError` before `sqrt` runs.  The
other two dispatch branches return the bare number `0`. -/
def impedance (resistance indReact capReact : ℚ) : Except PyError ℚ :=
  if zc3 resistance indReact capReact ≠ 1 then
    .error (.valueError "One and only one argument must be 0")
  else if resistance = 0 then
    .error .typeError
  else if indReact = 0 then
    .ok 0
  else if capReact = 0 then
    .ok 0
  else
    .error (.valueError "Exactly one argument must be 0")

/-- `passives.divider`: voltage-divider solver over four parameters, testing
`v_in`, `v_out`, `res_high`, `res_low` for zero in that order. -/
def divider (res_high res_low v_in v_out : ℚ) : Except PyError ℚ :=
  if zc4 res_high res_low v_in v_out ≠ 1 then
    .error (.valueError "One and only one argument must be 0")
  else if v_in = 0 then
    pydiv (v_out * (res_low + res_high)) res_low
  else if v_out = 0 then
    (pydiv res_low (res_high + res_low)).map (fun v => v * v_in)
  else if res_high = 0 then
    (pydiv (res_low * v_in) v_out).map (fun v => v - res_low)
  else if res_low = 0 then
    pydiv (res_high * v_out) (v_in - v_out)
  else
    .error (.valueError "Exactly one argument must be 0")

/-! ### Helper lemmas -/

lemma mathPi_pos : 0 < mathPi := by norm_num [mathPi]

lemma mathPi_ne_zero : mathPi ≠ 0 := ne_of_gt mathPi_pos

lemma zc3_cases {a b c : ℚ} (h : zc3 a b c = 1) :
    (a = 0 ∧ b ≠ 0 ∧ c ≠ 0) ∨ (a ≠ 0 ∧ b = 0 ∧ c ≠ 0) ∨ (a ≠ 0 ∧ b ≠ 0 ∧ c = 0) := by
  unfold zc3 at h
  split_ifs at h <;> simp_all

lemma zc4_cases {a b c d : ℚ} (h : zc4 a b c d = 1) :
    (a = 0 ∧ b ≠ 0 ∧ c ≠ 0 ∧ d ≠ 0) ∨ (a ≠ 0 ∧ b = 0 ∧ c ≠ 0 ∧ d ≠ 0) ∨
    (a ≠ 0 ∧ b ≠ 0 ∧ c = 0 ∧ d ≠ 0) ∨ (a ≠ 0 ∧ b ≠ 0 ∧ c ≠ 0 ∧ d = 0) := by
  unfold zc4 at h
  split_ifs at h <;> simp_all

lemma zc3_of_left {a b c : ℚ} (ha : a = 0) (hb : b ≠ 0) (hc : c ≠ 0) : zc3 a b c = 1 := by
  simp [zc3, ha, hb, hc]

lemma zc3_of_mid {a b c : ℚ} (ha : a ≠ 0) (hb : b = 0) (hc : c ≠ 0) : zc3 a b c = 1 := by
  simp [zc3, ha, hb, hc]

lemma zc3_of_right {a b c : ℚ} (ha : a ≠ 0) (hb : b ≠ 0) (hc : c = 0) : zc3 a b c = 1 := by
  simp [zc3, ha, hb, hc]

/-! ### Claims -/

/-- C1: the claim says the `resistance == 0` branch of `impedance` returns
the total impedance magnitude `sqrt(R^2 + (X_L - X_C)^2) = |X_L - X_C|`.
In the code that branch evaluates `math.sqrt(pow(ind_reactance + cap_reactance))`,
calling the builtin `pow` with a single argument, which raises `TypeError`
for every input (and the expression sums the reactances instead of
subtracting them).  At `impedance(0, 3, 4)` the claim expects `1`; the code
raises.  The two other dispatch branches do return `0` as claimed. -/
theorem impedance_resistance_branch_raises :
    impedance 0 3 4 = .error .typeError ∧
    impedance 5 0 4 = .ok 0 ∧
    impedance 5 4 0 = .ok 0 := by
  refine ⟨?_, ?_, ?_⟩ <;> norm_num [impedance, zc3]

/-- C2 counterexample: the claim says a division by zero or negative square
root inside a formula yields an implementation-defined floating-point result
(infinity or NaN) rather than raising.  In Python both raise:
`divider(1, 0, 5, 5)` (res_low branch, `v_in == v_out`) raises
`ZeroDivisionError`, and `resonance(1, -1, 0)` (frequency branch, negative
radicand) raises `ValueError: math domain error`; neither returns a value. -/
theorem divider_div_zero_raises_cex :
    divider 1 0 5 5 = .error .zeroDivisionError ∧
    resonance 1 (-1) 0 = .error (.valueError "math domain error") := by
  constructor
  · norm_num [divider, zc4, pydiv]
  · norm_num [resonance, zc3, pydiv, mathPi]

/-- C2 (amended): an input that drives a formula into a division by zero or
a negative square root makes the call raise ZeroDivisionError, respectively
ValueError "math domain error" — it is not pre-validated, but it raises
rather than returning an infinity or NaN. -/
theorem formula_arith_errors_raise :
    (∀ rh vio : ℚ, rh ≠ 0 → vio ≠ 0 →
      divider rh 0 vio vio = .error .zeroDivisionError) ∧
    (∀ c l : ℚ, c * l < 0 →
      resonance c l 0 = .error (.valueError "math domain error")) := by
  constructor
  · intro rh vio hrh hvio
    have hz : zc4 rh 0 vio vio = 1 := by simp [zc4, hrh, hvio]
    simp [divider, hz, hrh, hvio, pydiv]
  · intro c l hcl
    have hc : c ≠ 0 := by rintro rfl; simp at hcl
    have hl : l ≠ 0 := by rintro rfl; simp at hcl
    have hz : zc3 c l 0 = 1 := zc3_of_right hc hl rfl
    have hden : 4 * mathPi ^ 2 * c * l ≠ 0 := by
      refine mul_ne_zero (mul_ne_zero (mul_ne_zero ?_ ?_) hc) hl
      · norm_num
      · exact pow_ne_zero 2 mathPi_ne_zero
    have hneg : 1 / (4 * mathPi ^ 2 * c * l) < 0 := by
      apply div_neg_of_pos_of_neg one_pos
      have h4 : (0:ℚ) < 4 * mathPi ^ 2 := mul_pos (by norm_num) (pow_pos mathPi_pos 2)
      calc 4 * mathPi ^ 2 * c * l = 4 * mathPi ^ 2 * (c * l) := by ring
        _ < 0 := mul_neg_of_pos_of_neg h4 hcl
    simp [resonance, hz, hl, hc, hden, hneg]
    have heq : l⁻¹ * (c⁻¹ * ((mathPi ^ 2)⁻¹ * 4⁻¹)) = 1 / (4 * mathPi ^ 2 * c * l) := by
      rw [one_div, mul_inv, mul_inv, mul_inv]; ring
    rw [heq]
    exact hneg

theorem formula_arith_errors_raise_witness :
    divider 2 0 7 7 = .error .zeroDivisionError ∧
    resonance 2 (-3) 0 = .error (.valueError "math domain error") :=
  ⟨formula_arith_errors_raise.1 2 7 (by norm_num) (by norm_num),
   formula_arith_errors_raise.2 2 (-3) (by norm_num)⟩

/-- C3 counterexample: the claim exhibits "frequency = 0 while solving for
capacitance" as a validation-passing call of `cap_reactance` that divides by
zero.  That call has two zero arguments, so the single-zero gate rejects it
with the InvalidArgument error before any formula runs. -/
theorem cap_reactance_degenerate_rejected_cex :
    cap_reactance 0 0 5 = .error (.valueError "One and only one argument must be 0") := by
  norm_num [cap_reactance, zc3]

/-- C3 (amended): no call to `cap_reactance` that passes its validation
(exactly one zero argument, all arguments non-negative) can hit a division
by zero: the single-zero gate guarantees the non-target parameters are
nonzero, so the selected formula's denominator is nonzero and the call
returns a result. -/
theorem cap_reactance_valid_no_div_zero (c f x : ℚ)
    (hz : zc3 c f x = 1) (hc : 0 ≤ c) (hf : 0 ≤ f) (hx : 0 ≤ x) :
    ∃ key v, cap_reactance c f x = .ok (key, v) := by
  have hpi := mathPi_ne_zero
  have h2ne : (2:ℚ) ≠ 0 := two_ne_zero
  rcases zc3_cases hz with ⟨h1, h2, h3⟩ | ⟨h1, h2, h3⟩ | ⟨h1, h2, h3⟩
  · subst h1
    refine ⟨"capacitance", 1 / (2 * mathPi * f * x), ?_⟩
    have hden : 2 * mathPi * f * x ≠ 0 :=
      mul_ne_zero (mul_ne_zero (mul_ne_zero h2ne hpi) h2) h3
    simp [cap_reactance, hz, h2, h3, not_lt.mpr hf, not_lt.mpr hx, pydiv, hden, Except.map]
  · subst h2
    refine ⟨"frequency", 1 / (2 * mathPi * c * x), ?_⟩
    have hden : 2 * mathPi * c * x ≠ 0 :=
      mul_ne_zero (mul_ne_zero (mul_ne_zero h2ne hpi) h1) h3
    simp [cap_reactance, hz, h1, h3, not_lt.mpr hc, not_lt.mpr hx, pydiv, hden, Except.map]
  · subst h3
    refine ⟨"reactance", 1 / (2 * mathPi * f * c), ?_⟩
    have hden : 2 * mathPi * f * c ≠ 0 :=
      mul_ne_zero (mul_ne_zero (mul_ne_zero h2ne hpi) h2) h1
    simp [cap_reactance, hz, h1, h2, not_lt.mpr hc, not_lt.mpr hf, pydiv, hden, Except.map]

theorem cap_reactance_valid_no_div_zero_witness :
    ∃ key v, cap_reactance 0 2 3 = .ok (key, v) :=
  cap_reactance_valid_no_div_zero 0 2 3 (by norm_num [zc3]) (by norm_num) (by norm_num) (by norm_num)

/-- C4: `ind_reactance` with exactly one zero argument and the other two
positive solves `reactance = 2*pi*frequency*inductance` for the zero slot,
and the single result key names the solved-for parameter. -/
theorem ind_reactance_solves_formula (l f x : ℚ) :
    (x = 0 → 0 < l → 0 < f →
      ind_reactance l f x = .ok ("reactance", 2 * mathPi * f * l)) ∧
    (l = 0 → 0 < f → 0 < x →
      ind_reactance l f x = .ok ("inductance", x / (2 * mathPi * f))) ∧
    (f = 0 → 0 < l → 0 < x →
      ind_reactance l f x = .ok ("frequency", x / (2 * mathPi * l))) := by
  refine ⟨?_, ?_, ?_⟩
  · rintro rfl hl hf
    have hz : zc3 l f 0 = 1 := zc3_of_right hl.ne' hf.ne' rfl
    simp [ind_reactance, hz, hl.ne', hf.ne', not_lt.mpr hl.le, not_lt.mpr hf.le]
  · rintro rfl hf hx
    have hz : zc3 0 f x = 1 := zc3_of_left rfl hf.ne' hx.ne'
    have hden : 2 * mathPi * f ≠ 0 :=
      mul_ne_zero (mul_ne_zero two_ne_zero mathPi_ne_zero) hf.ne'
    simp [ind_reactance, hz, hf.ne', hx.ne', not_lt.mpr hf.le, not_lt.mpr hx.le,
      pydiv, hden, Except.map]
  · rintro rfl hl hx
    have hz : zc3 l 0 x = 1 := zc3_of_mid hl.ne' rfl hx.ne'
    have hden : 2 * mathPi * l ≠ 0 :=
      mul_ne_zero (mul_ne_zero two_ne_zero mathPi_ne_zero) hl.ne'
    simp [ind_reactance, hz, hl.ne', hx.ne', not_lt.mpr hl.le, not_lt.mpr hx.le,
      pydiv, hden, Except.map]

theorem ind_reactance_solves_formula_witness :
    ind_reactance 3 5 0 = .ok ("reactance", 2 * mathPi * 5 * 3) :=
  (ind_reactance_solves_formula 3 5 0).1 rfl (by norm_num) (by norm_num)

/-- C5: in both reactance solvers, a call passing the single-zero gate with
some negative argument raises the NegativeValue error naming the offending
parameter, the parameters being checked in the fixed order
inductance/capacitance, then frequency, then reactance, before the
zero-branch dispatch; in particular `cap_reactance(35e-6, 0, -1)` raises
"Reactance cannot be negative". -/
theorem reactance_solvers_negative_checks :
    (∀ l f x : ℚ, zc3 l f x = 1 → l < 0 ∨ f < 0 ∨ x < 0 →
      ind_reactance l f x = .error (.valueError
        (if l < 0 then "Inductance cannot be negative"
         else if f < 0 then "Frequency cannot be negative"
         else "Reactance cannot be negative"))) ∧
    (∀ c f x : ℚ, zc3 c f x = 1 → c < 0 ∨ f < 0 ∨ x < 0 →
      cap_reactance c f x = .error (.valueError
        (if c < 0 then "Capacitance cannot be negative"
         else if f < 0 then "Frequency cannot be negative"
         else "Reactance cannot be negative"))) ∧
    cap_reactance (7 / 200000) 0 (-1) = .error (.valueError "Reactance cannot be negative") := by
  refine ⟨?_, ?_, by norm_num [cap_reactance, zc3]⟩
  · intro l f x hz hneg
    by_cases hl : l < 0
    · simp [ind_reactance, hz, hl]
    · by_cases hf : f < 0
      · simp [ind_reactance, hz, hl, hf]
      · have hx : x < 0 := by tauto
        simp [ind_reactance, hz, hl, hf, hx]
  · intro c f x hz hneg
    by_cases hc : c < 0
    · simp [cap_reactance, hz, hc]
    · by_cases hf : f < 0
      · simp [cap_reactance, hz, hc, hf]
      · have hx : x < 0 := by tauto
        simp [cap_reactance, hz, hc, hf, hx]

theorem reactance_solvers_negative_checks_witness :
    ind_reactance 0 (-1) 5 = .error (.valueError "Frequency cannot be negative") := by
  have h := reactance_solvers_negative_checks.1 0 (-1) 5 (by norm_num [zc3])
    (Or.inr (Or.inl (by norm_num)))
  simpa using h

/-- C6: every solver raises the InvalidArgument error "One and only one
argument must be 0" whenever the count of zeros among its parameters is not
exactly one, returning no result. -/
theorem all_solvers_zero_count_gate :
    (∀ a b c : ℚ, zc3 a b c ≠ 1 →
      ind_reactance a b c = .error (.valueError "One and only one argument must be 0")) ∧
    (∀ a b c : ℚ, zc3 a b c ≠ 1 →
      cap_reactance a b c = .error (.valueError "One and only one argument must be 0")) ∧
    (∀ a b c : ℚ, zc3 a b c ≠ 1 →
      resonance a b c = .error (.valueError "One and only one argument must be 0")) ∧
    (∀ a b c : ℚ, zc3 a b c ≠ 1 →
      ohms_law a b c = .error (.valueError "One and only one argument must be 0")) ∧
    (∀ a b c : ℚ, zc3 a b c ≠ 1 →
      power a b c = .error (.valueError "One and only one argument must be 0")) ∧
    (∀ a b c : ℚ, zc3 a b c ≠ 1 →
      impedance a b c = .error (.valueError "One and only one argument must be 0")) ∧
    (∀ a b c d : ℚ, zc4 a b c d ≠ 1 →
      divider a b c d = .error (.valueError "One and only one argument must be 0")) := by
  refine ⟨?_, ?_, ?_, ?_, ?_, ?_, ?_⟩ <;> intro a b c
  · intro h; simp [ind_reactance, h]
  · intro h; simp [cap_reactance, h]
  · intro h; simp [resonance, h]
  · intro h; simp [ohms_law, h]
  · intro h; simp [power, h]
  · intro h; simp [impedance, h]
  · intro d h; simp [divider, h]

theorem all_solvers_zero_count_gate_witness :
    ind_reactance 1 2 3 = .error (.valueError "One and only one argument must be 0") ∧
    divider 0 0 1 2 = .error (.valueError "One and only one argument must be 0") :=
  ⟨all_solvers_zero_count_gate.1 1 2 3 (by norm_num [zc3]),
   all_solvers_zero_count_gate.2.2.2.2.2.2 0 0 1 2 (by norm_num [zc4])⟩

/-- C7: round-trip law for the invertible three-parameter solvers cited by
the spec: for positive a, b, solving for the zero slot and feeding the
computed result back with one of the original non-zero slots zeroed
reproduces the original value (exactly, in this exact-arithmetic model). -/
theorem solver_round_trip (a b : ℚ) (ha : 0 < a) (hb : 0 < b) :
    (ind_reactance a b 0 = .ok ("reactance", 2 * mathPi * b * a) ∧
     ind_reactance a 0 (2 * mathPi * b * a) = .ok ("frequency", b) ∧
     ind_reactance 0 b (2 * mathPi * b * a) = .ok ("inductance", a)) ∧
    (cap_reactance a b 0 = .ok ("reactance", 1 / (2 * mathPi * b * a)) ∧
     cap_reactance a 0 (1 / (2 * mathPi * b * a)) = .ok ("frequency", b) ∧
     cap_reactance 0 b (1 / (2 * mathPi * b * a)) = .ok ("capacitance", a)) ∧
    (ohms_law a b 0 = .ok ("resistance", a / b) ∧
     ohms_law a 0 (a / b) = .ok ("current", b) ∧
     ohms_law 0 b (a / b) = .ok ("voltage", a)) := by
  have hpi := mathPi_pos
  have h2pi : (0:ℚ) < 2 * mathPi := by linarith
  have hY : 0 < 2 * mathPi * b * a := mul_pos (mul_pos h2pi hb) ha
  have hXi : 0 < 1 / (2 * mathPi * b * a) := by positivity
  have hRq : 0 < a / b := div_pos ha hb
  have ind1 : ind_reactance a b 0 = .ok ("reactance", 2 * mathPi * b * a) := by
    have hz : zc3 a b 0 = 1 := zc3_of_right ha.ne' hb.ne' rfl
    simp [ind_reactance, hz, ha.ne', hb.ne', not_lt.mpr ha.le, not_lt.mpr hb.le]
  have ind2 : ∀ X : ℚ, 0 < X → X = 2 * mathPi * b * a →
      ind_reactance a 0 X = .ok ("frequency", b) := by
    intro X hX hXeq
    have hz : zc3 a 0 X = 1 := zc3_of_mid ha.ne' rfl hX.ne'
    have hden : 2 * mathPi * a ≠ 0 := by positivity
    simp [ind_reactance, hz, ha.ne', hX.ne', not_lt.mpr ha.le, not_lt.mpr hX.le,
      pydiv, hden, Except.map]
    subst hXeq
    field_simp
    ring
  have ind3 : ∀ X : ℚ, 0 < X → X = 2 * mathPi * b * a →
      ind_reactance 0 b X = .ok ("inductance", a) := by
    intro X hX hXeq
    have hz : zc3 0 b X = 1 := zc3_of_left rfl hb.ne' hX.ne'
    have hden : 2 * mathPi * b ≠ 0 := by positivity
    simp [ind_reactance, hz, hb.ne', hX.ne', not_lt.mpr hb.le, not_lt.mpr hX.le,
      pydiv, hden, Except.map]
    subst hXeq
    field_simp
  have cap1 : cap_reactance a b 0 = .ok ("reactance", 1 / (2 * mathPi * b * a)) := by
    have hz : zc3 a b 0 = 1 := zc3_of_right ha.ne' hb.ne' rfl
    have hden : 2 * mathPi * b * a ≠ 0 := hY.ne'
    simp [cap_reactance, hz, ha.ne', hb.ne', not_lt.mpr ha.le, not_lt.mpr hb.le,
      pydiv, hden, Except.map]
  have cap2 : ∀ X : ℚ, 0 < X → X = 1 / (2 * mathPi * b * a) →
      cap_reactance a 0 X = .ok ("frequency", b) := by
    intro X hX hXeq
    have hz : zc3 a 0 X = 1 := zc3_of_mid ha.ne' rfl hX.ne'
    have hden : 2 * mathPi * a * X ≠ 0 := by positivity
    simp [cap_reactance, hz, ha.ne', hX.ne', not_lt.mpr ha.le, not_lt.mpr hX.le,
      pydiv, hden, Except.map]
    subst hXeq
    rw [one_div, inv_inv]
    field_simp
    ring
  have cap3 : ∀ X : ℚ, 0 < X → X = 1 / (2 * mathPi * b * a) →
      cap_reactance 0 b X = .ok ("capacitance", a) := by
    intro X hX hXeq
    have hz : zc3 0 b X = 1 := zc3_of_left rfl hb.ne' hX.ne'
    have hden : 2 * mathPi * b * X ≠ 0 := by positivity
    simp [cap_reactance, hz, hb.ne', hX.ne', not_lt.mpr hb.le, not_lt.mpr hX.le,
      pydiv, hden, Except.map]
    subst hXeq
    rw [one_div, inv_inv]
    field_simp
    ring
  have ohm1 : ohms_law a b 0 = .ok ("resistance", a / b) := by
    have hz : zc3 a b 0 = 1 := zc3_of_right ha.ne' hb.ne' rfl
    simp [ohms_law, hz, ha.ne', hb.ne', pydiv, Except.map]
  have ohm2 : ∀ R : ℚ, 0 < R → R = a / b →
      ohms_law a 0 R = .ok ("current", b) := by
    intro R hR hReq
    have hz : zc3 a 0 R = 1 := zc3_of_mid ha.ne' rfl hR.ne'
    simp [ohms_law, hz, ha.ne', hR.ne', pydiv, Except.map]
    subst hReq
    field_simp
  have ohm3 : ∀ R : ℚ, 0 < R → R = a / b →
      ohms_law 0 b R = .ok ("voltage", a) := by
    intro R hR hReq
    have hz : zc3 0 b R = 1 := zc3_of_left rfl hb.ne' hR.ne'
    simp [ohms_law, hz, hb.ne', hR.ne', pydiv, Except.map]
    subst hReq
    field_simp
  exact ⟨⟨ind1, ind2 _ hY rfl, ind3 _ hY rfl⟩,
         ⟨cap1, cap2 _ hXi rfl, cap3 _ hXi rfl⟩,
         ⟨ohm1, ohm2 _ hRq rfl, ohm3 _ hRq rfl⟩⟩

theorem solver_round_trip_witness :
    ind_reactance 3 5 0 = .ok ("reactance", 2 * mathPi * 5 * 3) ∧
    ind_reactance 3 0 (2 * mathPi * 5 * 3) = .ok ("frequency", 5) :=
  ⟨((solver_round_trip 3 5 (by norm_num) (by norm_num)).1).1,
   ((solver_round_trip 3 5 (by norm_num) (by norm_num)).1).2.1⟩

/-- C8: `power` always returns the single key "power", whose value is
I^2*R when voltage is the zero sentinel, V^2/R when current is, and V*I
when resistance is; in particular `power(10, 0, 5)` returns 20. -/
theorem power_always_power_key (V I R : ℚ) :
    (V = 0 → zc3 V I R = 1 → power V I R = .ok ("power", I ^ 2 * R)) ∧
    (I = 0 → zc3 V I R = 1 → power V I R = .ok ("power", V ^ 2 / R)) ∧
    (R = 0 → zc3 V I R = 1 → power V I R = .ok ("power", V * I)) ∧
    power 10 0 5 = .ok ("power", 20) := by
  refine ⟨?_, ?_, ?_, by norm_num [power, zc3, pydiv, Except.map]⟩
  · rintro rfl hz
    simp [power, hz]
  · rintro rfl hz
    rcases zc3_cases hz with ⟨h1, h2, h3⟩ | ⟨h1, h2, h3⟩ | ⟨h1, h2, h3⟩ <;>
      first
      | (exact absurd rfl h2)
      | simp [power, hz, h1, h3, pydiv, Except.map]
  · rintro rfl hz
    rcases zc3_cases hz with ⟨h1, h2, h3⟩ | ⟨h1, h2, h3⟩ | ⟨h1, h2, h3⟩ <;>
      first
      | (exact absurd rfl h3)
      | simp [power, hz, h1, h2, pydiv, Except.map]

theorem power_always_power_key_witness :
    power 0 2 3 = .ok ("power", 2 ^ 2 * 3) :=
  (power_always_power_key 0 2 3).1 rfl (by norm_num [zc3])

/-- C9 counterexample: the claim asserts that every call of `divider` with
exactly one zero argument returns the branch formula's numeric value.  At
`divider(-5, 5, 3, 0)` (v_out branch) the formula's denominator
`res_high + res_low` is zero, so the code raises ZeroDivisionError and
returns no value. -/
theorem divider_zero_denominator_cex :
    divider (-5) 5 3 0 = .error .zeroDivisionError := by
  norm_num [divider, zc4, pydiv, Except.map]

/-- C9 (amended): with exactly one of the four arguments zero, `divider`
dispatches on v_in, v_out, res_high, res_low in that order and returns the
branch formula's bare value, provided the branch's denominator is nonzero
(`res_high + res_low` in the v_out branch, `v_in - v_out` in the res_low
branch; the other two denominators are nonzero by the single-zero gate);
a zero denominator instead raises ZeroDivisionError. -/
theorem divider_branch_formulas (rh rl vi vo : ℚ) (hz : zc4 rh rl vi vo = 1) :
    (vi = 0 → divider rh rl vi vo = .ok (vo * (rl + rh) / rl)) ∧
    (vo = 0 → rh + rl ≠ 0 → divider rh rl vi vo = .ok (rl / (rh + rl) * vi)) ∧
    (rh = 0 → divider rh rl vi vo = .ok (rl * vi / vo - rl)) ∧
    (rl = 0 → vi ≠ vo → divider rh rl vi vo = .ok (rh * vo / (vi - vo))) := by
  refine ⟨?_, ?_, ?_, ?_⟩
  · rintro rfl
    rcases zc4_cases hz with ⟨h1, h2, h3, h4⟩ | ⟨h1, h2, h3, h4⟩ | ⟨h1, h2, h3, h4⟩ |
      ⟨h1, h2, h3, h4⟩ <;> first
      | (exact absurd rfl h3)
      | simp [divider, hz, h2, h4, pydiv, Except.map]
  · rintro rfl hden
    rcases zc4_cases hz with ⟨h1, h2, h3, h4⟩ | ⟨h1, h2, h3, h4⟩ | ⟨h1, h2, h3, h4⟩ |
      ⟨h1, h2, h3, h4⟩ <;> first
      | (exact absurd rfl h4)
      | simp [divider, hz, h3, hden, pydiv, Except.map]
  · rintro rfl
    rcases zc4_cases hz with ⟨h1, h2, h3, h4⟩ | ⟨h1, h2, h3, h4⟩ | ⟨h1, h2, h3, h4⟩ |
      ⟨h1, h2, h3, h4⟩ <;> first
      | (exact absurd rfl h1)
      | simp [divider, hz, h2, h3, h4, pydiv, Except.map]
  · rintro rfl hne
    have hsub : vi - vo ≠ 0 := sub_ne_zero_of_ne hne
    rcases zc4_cases hz with ⟨h1, h2, h3, h4⟩ | ⟨h1, h2, h3, h4⟩ | ⟨h1, h2, h3, h4⟩ |
      ⟨h1, h2, h3, h4⟩ <;> first
      | (exact absurd rfl h2)
      | simp [divider, hz, h1, h3, h4, pydiv, hsub, Except.map]

theorem divider_branch_formulas_witness :
    divider 1 2 0 3 = .ok (3 * (2 + 1) / 2) :=
  (divider_branch_formulas 1 2 0 3 (by norm_num [zc4])).1 rfl

/-- C10: in every solver the trailing "Exactly one argument must be 0"
branch is unreachable: whenever the zero-count gate passes, one of the
dispatch branches is taken, so the call returns a formula result or raises
one of the other errors, never the final else error. -/
theorem final_else_unreachable :
    (∀ a b c : ℚ, zc3 a b c = 1 →
      ind_reactance a b c ≠ .error (.valueError "Exactly one argument must be 0")) ∧
    (∀ a b c : ℚ, zc3 a b c = 1 →
      cap_reactance a b c ≠ .error (.valueError "Exactly one argument must be 0")) ∧
    (∀ a b c : ℚ, zc3 a b c = 1 →
      resonance a b c ≠ .error (.valueError "Exactly one argument must be 0")) ∧
    (∀ a b c : ℚ, zc3 a b c = 1 →
      ohms_law a b c ≠ .error (.valueError "Exactly one argument must be 0")) ∧
    (∀ a b c : ℚ, zc3 a b c = 1 →
      power a b c ≠ .error (.valueError "Exactly one argument must be 0")) ∧
    (∀ a b c : ℚ, zc3 a b c = 1 →
      impedance a b c ≠ .error (.valueError "Exactly one argument must be 0")) ∧
    (∀ a b c d : ℚ, zc4 a b c d = 1 →
      divider a b c d ≠ .error (.valueError "Exactly one argument must be 0")) := by
  refine ⟨?_, ?_, ?_, ?_, ?_, ?_, ?_⟩
  · intro a b c h
    have hcase := zc3_cases h
    unfold ind_reactance
    rw [if_neg (by simp [h])]
    split_ifs <;> simp_all [pydiv, Except.map, mathPi_ne_zero]
  · intro a b c h
    have hcase := zc3_cases h
    unfold cap_reactance
    rw [if_neg (by simp [h])]
    split_ifs <;> simp_all [pydiv, Except.map, mathPi_ne_zero]
  · intro a b c h
    have hcase := zc3_cases h
    unfold resonance
    rw [if_neg (by simp [h])]
    split_ifs <;> simp_all [pydiv, Except.map, mathPi_ne_zero]
  · intro a b c h
    have hcase := zc3_cases h
    unfold ohms_law
    rw [if_neg (by simp [h])]
    split_ifs <;> simp_all [pydiv, Except.map]
  · intro a b c h
    have hcase := zc3_cases h
    unfold power
    rw [if_neg (by simp [h])]
    split_ifs <;> simp_all [pydiv, Except.map]
  · intro a b c h
    have hcase := zc3_cases h
    unfold impedance
    rw [if_neg (by simp [h])]
    split_ifs <;> simp_all [pydiv, Except.map]
  · intro a b c d h
    have hcase := zc4_cases h
    unfold divider
    rw [if_neg (by simp [h])]
    split_ifs <;> simp_all [pydiv, Except.map] <;> split_ifs <;> simp_all [Except.map]

theorem final_else_unreachable_witness :
    ind_reactance 0 1 2 ≠ .error (.valueError "Exactly one argument must be 0") :=
  final_else_unreachable.1 0 1 2 (by norm_num [zc3])
